import Mathlib

/-!
Verification of the selfservice-portal service core, shallowly embedded
from the Go sources: the response recorder and the middleware pipeline
(src/main.go), the pangolin upstream client (package pangolin: envelope
decoding, rule serialization, GetResources, CreateRule), the server
lifecycle result handling (run and main in src/main.go), and the
register-IP handler (handleRegisterIP).
-/

namespace Portal

/-! ## JSON values

Wire payloads are modelled as an abstract syntax tree of JSON values.
Numbers are integers, which covers every numeric field of the pangolin
wire structs (all are Go int). Decoding follows the behaviour of Go
encoding/json on the concrete struct types used by the client: the
fields of a JSON object are processed in order (so a duplicate key
overwrites), keys are matched against the json struct tags, unknown
keys are ignored, a JSON null stores nil into a pointer field and
leaves a non-pointer field unchanged, and a type mismatch is an error.
-/

inductive Json where
  | null
  | bool (b : Bool)
  | num (n : Int)
  | str (s : String)
  | arr (elems : List Json)
  | obj (fields : List (String × Json))

/-! ## Pangolin wire structs

Embeds the struct types of the pangolin package. Go pointer fields
(which carry the json omitempty tag on PangolinRule) become Option.
-/

structure PangolinResource where
  ResourceID : Option Int
  Name : Option String
  Enabled : Option Bool
  FullDomain : Option String
deriving Repr, DecidableEq

structure PangolinRule where
  RuleID : Option Int
  ResourceID : Option Int
  Enabled : Option Bool
  Priority : Option Int
  Action : Option String
  Match : Option String
  Value : Option String
deriving Repr, DecidableEq

structure PangolinResources where
  Resources : List PangolinResource
deriving Repr, DecidableEq

structure PangolinResponse (T : Type) where
  Data : T
  Success : Bool
  Error : Bool
  Message : String
  Status : Int
deriving Repr, DecidableEq

/-- Go zero value of PangolinResource: all pointer fields nil. -/
def PangolinResource.zero : PangolinResource := ⟨none, none, none, none⟩

/-- Go zero value of PangolinRule: all pointer fields nil. -/
def PangolinRule.zero : PangolinRule := ⟨none, none, none, none, none, none, none⟩

/-- Go zero value of PangolinResources: nil slice. -/
def PangolinResources.zero : PangolinResources := ⟨[]⟩

/-- Go zero value of the generic envelope, given the zero of the data type. -/
def PangolinResponse.zero {T : Type} (z : T) : PangolinResponse T := ⟨z, false, false, "", 0⟩

/-! ### Field decoding, following Go encoding/json -/

/-- Decode a JSON value into a Go pointer-to-int field: null stores nil,
a number allocates, anything else is a type error. -/
def setOptInt (_cur : Option Int) : Json → Except String (Option Int)
  | .null => .ok none
  | .num n => .ok (some n)
  | _ => .error "cannot unmarshal value into field of type pointer to int"

/-- Decode a JSON value into a Go pointer-to-string field. -/
def setOptString (_cur : Option String) : Json → Except String (Option String)
  | .null => .ok none
  | .str s => .ok (some s)
  | _ => .error "cannot unmarshal value into field of type pointer to string"

/-- Decode a JSON value into a Go pointer-to-bool field. -/
def setOptBool (_cur : Option Bool) : Json → Except String (Option Bool)
  | .null => .ok none
  | .bool b => .ok (some b)
  | _ => .error "cannot unmarshal value into field of type pointer to bool"

/-- Decode a JSON value into a Go bool field: null is a no-op. -/
def setBool (cur : Bool) : Json → Except String Bool
  | .null => .ok cur
  | .bool b => .ok b
  | _ => .error "cannot unmarshal value into field of type bool"

/-- Decode a JSON value into a Go int field: null is a no-op. -/
def setInt (cur : Int) : Json → Except String Int
  | .null => .ok cur
  | .num n => .ok n
  | _ => .error "cannot unmarshal value into field of type int"

/-- Decode a JSON value into a Go string field: null is a no-op. -/
def setString (cur : String) : Json → Except String String
  | .null => .ok cur
  | .str s => .ok s
  | _ => .error "cannot unmarshal value into field of type string"

/-- Assign one JSON object member to the matching PangolinResource field
(json tags: resourceId, name, enabled, fullDomain); unknown keys are ignored. -/
def decodePangolinResourceField (r : PangolinResource) (k : String) (v : Json) :
    Except String PangolinResource :=
  if k = "resourceId" then (setOptInt r.ResourceID v).map fun x => { r with ResourceID := x }
  else if k = "name" then (setOptString r.Name v).map fun x => { r with Name := x }
  else if k = "enabled" then (setOptBool r.Enabled v).map fun x => { r with Enabled := x }
  else if k = "fullDomain" then (setOptString r.FullDomain v).map fun x => { r with FullDomain := x }
  else .ok r

/-- Decode a JSON value into a PangolinResource struct. -/
def decodePangolinResource (cur : PangolinResource) : Json → Except String PangolinResource
  | .null => .ok cur
  | .obj fs => fs.foldlM (fun r kv => decodePangolinResourceField r kv.1 kv.2) cur
  | _ => .error "cannot unmarshal value into PangolinResource"

/-- Decode a JSON value into a slice of PangolinResource: null yields the
nil slice, an array decodes each element into a fresh zero element. -/
def decodeResourceSlice : Json → Except String (List PangolinResource)
  | .null => .ok []
  | .arr xs => xs.mapM (decodePangolinResource PangolinResource.zero)
  | _ => .error "cannot unmarshal value into resource slice"

/-- Decode a JSON value into a PangolinResources struct (json tag: resources). -/
def decodePangolinResources (cur : PangolinResources) : Json → Except String PangolinResources
  | .null => .ok cur
  | .obj fs => fs.foldlM (fun r kv =>
      if kv.1 = "resources" then (decodeResourceSlice kv.2).map fun x => { r with Resources := x }
      else .ok r) cur
  | _ => .error "cannot unmarshal value into PangolinResources"

/-- Assign one JSON object member to the matching PangolinRule field
(json tags: ruleId, resourceId, enabled, priority, action, match, value). -/
def decodePangolinRuleField (r : PangolinRule) (k : String) (v : Json) :
    Except String PangolinRule :=
  if k = "ruleId" then (setOptInt r.RuleID v).map fun x => { r with RuleID := x }
  else if k = "resourceId" then (setOptInt r.ResourceID v).map fun x => { r with ResourceID := x }
  else if k = "enabled" then (setOptBool r.Enabled v).map fun x => { r with Enabled := x }
  else if k = "priority" then (setOptInt r.Priority v).map fun x => { r with Priority := x }
  else if k = "action" then (setOptString r.Action v).map fun x => { r with Action := x }
  else if k = "match" then (setOptString r.Match v).map fun x => { r with Match := x }
  else if k = "value" then (setOptString r.Value v).map fun x => { r with Value := x }
  else .ok r

/-- Decode a JSON value into a PangolinRule struct. -/
def decodePangolinRule (cur : PangolinRule) : Json → Except String PangolinRule
  | .null => .ok cur
  | .obj fs => fs.foldlM (fun r kv => decodePangolinRuleField r kv.1 kv.2) cur
  | _ => .error "cannot unmarshal value into PangolinRule"

/-- Decode a JSON value into the generic envelope PangolinResponse of T,
given a decoder for the data field (json tags: data, success, error,
message, status). -/
def decodeEnvelope {T : Type} (decData : T → Json → Except String T)
    (cur : PangolinResponse T) : Json → Except String (PangolinResponse T)
  | .null => .ok cur
  | .obj fs => fs.foldlM (fun r kv =>
      if kv.1 = "data" then (decData r.Data kv.2).map fun x => { r with Data := x }
      else if kv.1 = "success" then (setBool r.Success kv.2).map fun x => { r with Success := x }
      else if kv.1 = "error" then (setBool r.Error kv.2).map fun x => { r with Error := x }
      else if kv.1 = "message" then (setString r.Message kv.2).map fun x => { r with Message := x }
      else if kv.1 = "status" then (setInt r.Status kv.2).map fun x => { r with Status := x }
      else .ok r) cur
  | _ => .error "cannot unmarshal value into PangolinResponse"

/-! ### Rule serialization (json.Marshal on PangolinRule)

Every field of PangolinRule is a pointer with the omitempty option, so
json.Marshal includes a key exactly when the pointer is non-nil, in
struct field order. -/

/-- One optional object member: present exactly when the field is set. -/
def optField (k : String) : Option Json → List (String × Json)
  | none => []
  | some v => [(k, v)]

/-- The JSON document json.Marshal produces for a PangolinRule, used as
the request body of CreateRule. -/
def marshalPangolinRule (r : PangolinRule) : Json :=
  .obj (optField "ruleId" (r.RuleID.map .num) ++
        optField "resourceId" (r.ResourceID.map .num) ++
        optField "enabled" (r.Enabled.map .bool) ++
        optField "priority" (r.Priority.map .num) ++
        optField "action" (r.Action.map .str) ++
        optField "match" (r.Match.map .str) ++
        optField "value" (r.Value.map .str))

/-! ## The pangolin client

GetResources and CreateRule are embedded from the point where the
transport round trip has succeeded: the argument is the received HTTP
response (status code, status text, body). The body is either
well-formed JSON or malformed text on which json.Unmarshal fails. -/

/-- A response body: malformed text, or a parsed JSON document. -/
inductive RespBody where
  | malformed
  | wellFormed (j : Json)

/-- An upstream HTTP response after a successful transport round trip:
StatusCode and Status mirror the fields of the Go http.Response. -/
structure HttpResp where
  StatusCode : Int
  Status : String
  body : RespBody

/-- The distinct error constructions of the pangolin client, one
constructor per errors.New call site plus the unmarshal failure. -/
inductive PangolinErr where
  | statusCode (statusText : String)
  | unmarshal (msg : String)
  | envelope (message : String)
deriving Repr, DecidableEq

/-- The error text each PangolinErr renders to, as built in the source. -/
def PangolinErr.text : PangolinErr → String
  | .statusCode t => "error status code: " ++ t
  | .unmarshal m => m
  | .envelope m => "error: " ++ m

/-- Decode the envelope used by GetResources. -/
def decodeResourcesEnvelope (j : Json) : Except String (PangolinResponse PangolinResources) :=
  decodeEnvelope decodePangolinResources (PangolinResponse.zero PangolinResources.zero) j

/-- Decode the envelope used by CreateRule. -/
def decodeRuleEnvelope (j : Json) : Except String (PangolinResponse PangolinRule) :=
  decodeEnvelope decodePangolinRule (PangolinResponse.zero PangolinRule.zero) j

/-- GetResources, from the received response on: any status other than
200 is rejected with the status text before the body is read; otherwise
the body is unmarshalled into the envelope and the data field is
returned. The envelope error flag is not consulted on this path. -/
def GetResources (res : HttpResp) : Except PangolinErr PangolinResources :=
  if res.StatusCode ≠ 200 then .error (.statusCode res.Status)
  else match res.body with
    | .malformed => .error (.unmarshal "unexpected end of JSON input")
    | .wellFormed j =>
      match decodeResourcesEnvelope j with
      | .error e => .error (.unmarshal e)
      | .ok resp => .ok resp.Data

/-- CreateRule, from the received response on: the status code is never
consulted; the body is unmarshalled into the envelope, the envelope
error flag is checked, and on error the envelope message is carried;
otherwise the data field is returned. -/
def CreateRule (res : HttpResp) : Except PangolinErr PangolinRule :=
  match res.body with
  | .malformed => .error (.unmarshal "unexpected end of JSON input")
  | .wellFormed j =>
    match decodeRuleEnvelope j with
    | .error e => .error (.unmarshal e)
    | .ok resp =>
      if resp.Error then .error (.envelope resp.Message)
      else .ok resp.Data

/-! ## The response recorder and the middleware pipeline

The responseRecorder of src/main.go wraps an http.ResponseWriter,
records the status and byte count of the response, and forwards every
call unchanged. A handler is modelled by its interaction trace with the
response writer it is given: the list of WriteHeader and Write calls it
performs before it either returns normally or panics. The underlying
sink observes the forwarded calls as a list of events. -/

structure responseRecorder where
  status : Int
  numBytes : Int
deriving Repr, DecidableEq

/-- A freshly constructed recorder: Go zero values. -/
def responseRecorder.init : responseRecorder := ⟨0, 0⟩

/-- WriteHeader records the status code and forwards the call. -/
def responseRecorder.WriteHeader (re : responseRecorder) (statusCode : Int) : responseRecorder :=
  { re with status := statusCode }

/-- Write accumulates the byte length of the payload and forwards the call. -/
def responseRecorder.Write (re : responseRecorder) (b : String) : responseRecorder :=
  { re with numBytes := re.numBytes + (b.utf8ByteSize : Int) }

/-- One call a handler performs on its response writer. -/
inductive WOp where
  | writeHeader (statusCode : Int)
  | write (b : String)
deriving Repr, DecidableEq

/-- One forwarded call as observed by the underlying sink. -/
inductive SinkEvent where
  | setStatus (statusCode : Int)
  | write (b : String)
deriving Repr, DecidableEq

/-- Advance a recorder by one writer call. -/
def recStep (re : responseRecorder) : WOp → responseRecorder
  | .writeHeader c => re.WriteHeader c
  | .write b => re.Write b

/-- A recorder forwards every call to the writer below it unchanged. -/
def opToSink : WOp → SinkEvent
  | .writeHeader c => .setStatus c
  | .write b => .write b

/-- Run a fresh recorder over a sequence of writer calls, returning its
final recorded state and the calls it forwarded to the underlying sink. -/
def recorderRun (ops : List WOp) : responseRecorder × List SinkEvent :=
  ops.foldl (fun acc op => (recStep acc.1 op, acc.2 ++ [opToSink op])) (responseRecorder.init, [])

/-- The value a handler panics with: either an error satisfying
errors.Is with http.ErrAbortHandler, or any other value, carried as the
text fmt.Sprint renders it to. -/
inductive PanicVal where
  | abortHandler
  | otherFault (text : String)
deriving Repr, DecidableEq

/-- How a handler invocation ends. -/
inductive HOutcome where
  | normal
  | panicked (v : PanicVal)
deriving Repr, DecidableEq

/-- A handler, abstracted to its interaction with the response writer:
the calls it performs (the executed prefix, when it panics midway) and
how it ends. -/
structure Handler where
  ops : List WOp
  outcome : HOutcome

/-- One access-log entry, restricted to the recorder-derived fields. -/
structure LogEntry where
  status : Int
  bytes : Int
deriving Repr, DecidableEq

/-- The observable result of running a middleware stage: the final
states of the writers it was given (innermost first), the calls that
reached the underlying sink, the access-log entries and error-log count
emitted, and whether the stage returned normally or let a panic escape. -/
structure StageResult where
  chain : List responseRecorder
  sink : List SinkEvent
  logs : List LogEntry
  errorLogs : Nat
  outcome : HOutcome

/-- Every recorder in a writer chain sees each forwarded call. -/
def chainStep (chain : List responseRecorder) (op : WOp) : List responseRecorder :=
  chain.map (recStep · op)

/-- A stage of the pipeline: a function of the writer chain it is handed. -/
def SHandler : Type := List responseRecorder → StageResult

/-- The innermost stage: the route handler itself. It performs its calls
(each reaching the sink through the chain of recorders) and ends. -/
def Handler.toSH (h : Handler) : SHandler := fun chain =>
  { chain := h.ops.foldl chainStep chain
    sink := h.ops.map opToSink
    logs := []
    errorLogs := 0
    outcome := h.outcome }

/-- The accesslog middleware of src/main.go: it wraps the writer it was
given in a fresh recorder, delegates, and after the delegate RETURNS it
emits one log entry with the status and byte count its recorder holds.
There is no deferred call: when the delegate panics, the stack unwinds
past the log statement and no entry is emitted. -/
def accesslog (next : SHandler) : SHandler := fun chain =>
  let res := next (responseRecorder.init :: chain)
  match res.chain with
  | wr :: rest =>
    match res.outcome with
    | .normal => { res with chain := rest, logs := res.logs ++ [⟨wr.status, wr.numBytes⟩] }
    | o => { res with chain := rest, outcome := o }
  | [] => res

/-- The calls http.Error performs on a writer: WriteHeader with the
given code, then Fprintln of the error text (which appends a newline). -/
def httpErrorOps (errText : String) : List WOp :=
  [.writeHeader 500, .write (errText ++ "\n")]

/-- The recovery middleware of src/main.go: it wraps the writer it was
given in a fresh recorder, delegates, and recovers a panic in a
deferred function. An abort-handler panic is suppressed silently. Any
other panic is error-logged; then, when its recorder holds a positive
status, nothing more is done, and otherwise http.Error writes a 500
response with the panic text directly to the writer the stage was
given (below its recorder). The stage always returns normally. -/
def recovery (next : SHandler) : SHandler := fun chain =>
  let res := next (responseRecorder.init :: chain)
  match res.chain with
  | wr :: rest =>
    match res.outcome with
    | .normal => { res with chain := rest }
    | .panicked .abortHandler => { res with chain := rest, outcome := .normal }
    | .panicked (.otherFault msg) =>
      if wr.status > 0 then
        { res with chain := rest, errorLogs := res.errorLogs + 1, outcome := .normal }
      else
        { chain := (httpErrorOps msg).foldl chainStep rest
          sink := res.sink ++ (httpErrorOps msg).map opToSink
          logs := res.logs
          errorLogs := res.errorLogs + 1
          outcome := .normal }
  | [] => res

/-- The pipeline as wired in route: recovery wraps accesslog wraps the
route handler, applied to the raw sink (an empty recorder chain). -/
def routeHandler (h : Handler) : StageResult :=
  recovery (accesslog h.toSH) []

/-! ## Server lifecycle (run and main in src/main.go) -/

/-- What ListenAndServe returns when it stops. -/
inductive ServeOutcome where
  | serverClosed
  | failed (msg : String)
deriving Repr, DecidableEq

/-- The serve goroutine forwards the error to the channel only when it
is neither nil nor http.ErrServerClosed. -/
def errChanSend : ServeOutcome → Option String
  | .serverClosed => none
  | .failed m => some m

/-- The first event the select statement of run observes: either an
error received from the channel, or context cancellation followed by
the result of server.Shutdown. -/
inductive RunEvent where
  | errChanRecv (msg : String)
  | ctxDone (shutdownErr : Option String)
deriving Repr, DecidableEq

/-- The result of run, as a function of the winning event: a channel
error is returned as is; on cancellation a failed shutdown is wrapped,
and a clean shutdown returns nil. -/
def run : RunEvent → Option String
  | .errChanRecv m => some m
  | .ctxDone none => none
  | .ctxDone (some e) => some ("server shutdown: " ++ e)

/-- What main does with the result of run: on an error, the error text
plus a newline goes to the error stream and the process exits 1;
otherwise main returns and the process exits 0. -/
def mainExit : Option String → Nat × Option String
  | none => (0, none)
  | some e => (1, some (e ++ "\n"))

/-- Exit code and error-stream output of the whole process, as a
function of the event that ended run. -/
def processExit (ev : RunEvent) : Nat × Option String :=
  mainExit (run ev)

/-! ## The register-IP handler -/

/-- Go strconv.Atoi restricted to the values it accepts: an optional
sign followed by at least one decimal digit (overflow not modelled). -/
def atoiDigits (cs : List Char) : Option Nat :=
  match cs with
  | [] => none
  | _ => cs.foldlM (fun acc c => if c.isDigit then some (acc * 10 + (c.toNat - '0'.toNat)) else none) 0

/-- Go strconv.Atoi. -/
def atoi (s : String) : Option Int :=
  match s.data with
  | '+' :: rest => (atoiDigits rest).map (fun n => (n : Int))
  | '-' :: rest => (atoiDigits rest).map (fun n => -(n : Int))
  | cs => (atoiDigits cs).map (fun n => (n : Int))

/-- The parts of a PUT /register/{id} request that handleRegisterIP can
observe: the id path value, the X-Real-IP header value (empty when the
header is absent), and the request body. -/
structure RegisterRequest where
  idPathValue : String
  xRealIP : String
  requestBody : String

/-- The first outward action of handleRegisterIP: either an error
response (when the id does not parse), or the CreateRule call with the
rule it sends upstream. -/
inductive RegisterStep where
  | respondError (statusCode : Int) (msg : String)
  | callCreateRule (rule : PangolinRule) (resourceID : Int)
deriving Repr, DecidableEq

/-- handleRegisterIP from src/main.go: it builds a fixed rule whose
value is the X-Real-IP header, parses the id path value, and either
responds 500 or calls CreateRule with the rule and the parsed id. The
request body is never read. -/
def handleRegisterIP (r : RegisterRequest) : RegisterStep :=
  let pangolinRule : PangolinRule :=
    { RuleID := none, ResourceID := none, Enabled := some true, Priority := some 10,
      Action := some "ACCEPT", Match := some "IP", Value := some r.xRealIP }
  match atoi r.idPathValue with
  | none => .respondError 500 "invalid syntax"
  | some resourceID => .callCreateRule pangolinRule resourceID

/-! ## Pipeline evaluation lemmas -/

/-- The state a fresh recorder reaches after a sequence of writer calls. -/
def recRun (re : responseRecorder) (ops : List WOp) : responseRecorder :=
  ops.foldl recStep re

theorem foldl_chainStep_nil (ops : List WOp) : ops.foldl chainStep [] = [] := by
  induction ops with
  | nil => rfl
  | cons op ops ih => simpa [chainStep] using ih

theorem foldl_chainStep_cons (ops : List WOp) (x : responseRecorder) (c : List responseRecorder) :
    ops.foldl chainStep (x :: c) = recRun x ops :: ops.foldl chainStep c := by
  induction ops generalizing x c with
  | nil => rfl
  | cons op ops ih =>
    show ops.foldl chainStep (chainStep (x :: c) op) = _
    rw [show chainStep (x :: c) op = recStep x op :: chainStep c op from rfl, ih]
    rfl

/-- Full evaluation of the wired pipeline on an abstract handler: both
recorders (the one of accesslog and the one of recovery) observe the
same calls, a normal return yields one access-log entry, a panic yields
none, and only an unrecovered fault with no status yet recorded makes
recovery add a 500 write to the sink. -/
theorem routeHandler_eval (h : Handler) :
    routeHandler h =
      match h.outcome with
      | .normal =>
          ⟨[], h.ops.map opToSink,
            [⟨(recRun responseRecorder.init h.ops).status,
              (recRun responseRecorder.init h.ops).numBytes⟩], 0, .normal⟩
      | .panicked .abortHandler => ⟨[], h.ops.map opToSink, [], 0, .normal⟩
      | .panicked (.otherFault msg) =>
          if (recRun responseRecorder.init h.ops).status > 0 then
            ⟨[], h.ops.map opToSink, [], 1, .normal⟩
          else
            ⟨[], h.ops.map opToSink ++ [.setStatus 500, .write (msg ++ "\n")], [], 1, .normal⟩ := by
  obtain ⟨ops, outcome⟩ := h
  unfold routeHandler recovery accesslog Handler.toSH
  simp only [foldl_chainStep_cons, foldl_chainStep_nil]
  cases outcome with
  | normal => rfl
  | panicked v =>
    cases v with
    | abortHandler => rfl
    | otherFault msg =>
      by_cases hst : (recRun responseRecorder.init ops).status > 0
      · simp only [hst, if_true]
      · simp [hst, httpErrorOps, opToSink, chainStep]

theorem recorderRun_foldl (ops : List WOp) (st : responseRecorder) (tr : List SinkEvent) :
    ops.foldl (fun acc op => (recStep acc.1 op, acc.2 ++ [opToSink op])) (st, tr) =
      (recRun st ops, tr ++ ops.map opToSink) := by
  induction ops generalizing st tr with
  | nil => simp [recRun]
  | cons op ops ih =>
    simp only [List.foldl_cons]
    rw [ih]
    simp [recRun, List.foldl_cons]

/-! ## Claims -/

/-- C1, counterexample: a request whose handler panics with a
non-abort value produces no access-log entry at all, not exactly one:
the access-log stage has no deferred call, so the unwinding panic skips
its log statement and is only recovered further out, in recovery. -/
theorem C1_counterexample :
    (routeHandler ⟨[], .panicked (.otherFault "boom")⟩).logs.length ≠ 1 := by decide

/-- C1, amended: the pipeline emits exactly one access-log entry when
the inner handler returns normally, and none when the inner handler
panics (whether with the benign abort signal or any other value),
because the access-log stage logs only after a normal return of its
delegate and sits inside the recovery stage. -/
theorem C1_access_log_count (h : Handler) :
    (routeHandler h).logs.length = if h.outcome = .normal then 1 else 0 := by
  rw [routeHandler_eval]
  obtain ⟨ops, outcome⟩ := h
  cases outcome with
  | normal => rfl
  | panicked v =>
    cases v with
    | abortHandler => rfl
    | otherFault msg =>
      by_cases hst : (recRun responseRecorder.init ops).status > 0 <;> simp [hst]

/-- C2, counterexample: invoking WriteHeader twice on the response
recorder, first with 200 and then with 404, leaves 404 as the recorded
status, not the first value 200; both calls are forwarded to the
underlying sink. -/
theorem C2_counterexample :
    (recorderRun [.writeHeader 200, .writeHeader 404]).1.status ≠ 200 ∧
    (recorderRun [.writeHeader 200, .writeHeader 404]).1.status = 404 ∧
    (recorderRun [.writeHeader 200, .writeHeader 404]).2 =
      [SinkEvent.setStatus 200, SinkEvent.setStatus 404] := by decide

/-- C2, amended: every WriteHeader invocation on the response recorder
is forwarded to the underlying sink, and the status recorded for
logging is the one of the LAST invocation: each later invocation
overwrites the recorded value. -/
theorem C2_recorder_last_write_wins :
    (∀ ops : List WOp, (recorderRun ops).2 = ops.map opToSink) ∧
    (∀ (pre : List WOp) (c : Int),
      (recorderRun (pre ++ [WOp.writeHeader c])).1.status = c) := by
  constructor
  · intro ops
    unfold recorderRun
    rw [recorderRun_foldl]
    simp
  · intro pre c
    unfold recorderRun
    rw [recorderRun_foldl]
    show (recRun responseRecorder.init (pre ++ [WOp.writeHeader c])).status = c
    unfold recRun
    rw [List.foldl_append]
    rfl

/-- C5: when the inner handler panics with a non-abort value, recovery
writes a 500 response whose body is the panic text (followed by the
newline Fprintln appends) exactly when no status has been recorded yet;
when a status was already written, no further call reaches the
underlying sink, so no duplicate status-set occurs. -/
theorem C5_recovery_single_write (ops : List WOp) (msg : String) :
    ((recRun responseRecorder.init ops).status = 0 →
      (routeHandler ⟨ops, .panicked (.otherFault msg)⟩).sink =
        ops.map opToSink ++ [SinkEvent.setStatus 500, SinkEvent.write (msg ++ "\n")]) ∧
    ((recRun responseRecorder.init ops).status > 0 →
      (routeHandler ⟨ops, .panicked (.otherFault msg)⟩).sink = ops.map opToSink) := by
  rw [routeHandler_eval]
  constructor
  · intro h0
    have hng : ¬ (recRun responseRecorder.init ops).status > 0 := by omega
    simp [hng]
  · intro hpos
    simp [hpos]

/-- C5, witness: a handler that panics before writing anything makes
recovery send the 500 and the panic text; a handler that writes status
204 and then panics leaves the sink with exactly its own status-set. -/
theorem C5_recovery_single_write_witness :
    (routeHandler ⟨[], .panicked (.otherFault "boom")⟩).sink =
        [SinkEvent.setStatus 500, SinkEvent.write "boom\n"] ∧
    (routeHandler ⟨[WOp.writeHeader 204], .panicked (.otherFault "boom")⟩).sink =
        [SinkEvent.setStatus 204] := by
  constructor
  · have h := (C5_recovery_single_write [] "boom").1 (by decide)
    simpa using h
  · have h := (C5_recovery_single_write [WOp.writeHeader 204] "boom").2 (by decide)
    simpa using h

/-- The scenario body of C3: an envelope whose error flag is set and
whose message reports a duplicate rule. -/
def dupRuleBody : Json := .obj [("error", .bool true), ("message", .str "duplicate rule")]

/-- C3: after a successful transport round trip, CreateRule parses the
envelope without consulting the HTTP status code (the response status
is unconstrained here); when the parsed envelope has the error flag
set, it returns the upstream-rejection error carrying the envelope
message, whose rendered text prefixes the message with the word error;
otherwise it returns the envelope data. -/
theorem C3_CreateRule_envelope (res : HttpResp) (j : Json)
    (resp : PangolinResponse PangolinRule)
    (hb : res.body = .wellFormed j) (hd : decodeRuleEnvelope j = .ok resp) :
    (resp.Error = true →
      CreateRule res = .error (.envelope resp.Message) ∧
      (PangolinErr.envelope resp.Message).text = "error: " ++ resp.Message) ∧
    (resp.Error = false → CreateRule res = .ok resp.Data) := by
  obtain ⟨sc, st, body⟩ := res
  simp only at hb
  subst hb
  constructor
  · intro he
    exact ⟨by simp [CreateRule, hd, he], rfl⟩
  · intro he
    simp [CreateRule, hd, he]

/-- C3, witness: HTTP 200 with the duplicate-rule envelope yields the
upstream-rejection error carrying the message duplicate rule, not a
transport error. -/
theorem C3_CreateRule_envelope_witness :
    CreateRule ⟨200, "200 OK", .wellFormed dupRuleBody⟩ =
      .error (.envelope "duplicate rule") ∧
    (PangolinErr.envelope "duplicate rule").text = "error: " ++ "duplicate rule" := by
  exact (C3_CreateRule_envelope ⟨200, "200 OK", .wellFormed dupRuleBody⟩ dupRuleBody
    ⟨PangolinRule.zero, false, true, "duplicate rule", 0⟩ rfl rfl).1 rfl

/-- The body used to refute C4: an HTTP 200 envelope that deserializes
successfully and carries the error flag set. -/
def c4Body : Json :=
  .obj [("data", .obj [("resources", .arr [])]), ("error", .bool true),
        ("message", .str "rejected")]

/-- C4, counterexample: on HTTP 200 with a body whose envelope
deserializes successfully and has the error flag set, GetResources
still returns the data field instead of an error: the envelope-level
error flag is never checked on this path. -/
theorem C4_counterexample :
    decodeResourcesEnvelope c4Body =
      .ok ⟨⟨[]⟩, false, true, "rejected", 0⟩ ∧
    GetResources ⟨200, "200 OK", .wellFormed c4Body⟩ = .ok ⟨[]⟩ := ⟨rfl, rfl⟩

/-- C4, amended: for every GetResources call that receives HTTP 200 and
whose envelope body deserializes successfully, the call returns the
data field of the envelope unconditionally; the envelope-level error
flag is not consulted, so the data is returned even when the flag is
set. -/
theorem C4_GetResources_skips_error_flag (res : HttpResp) (j : Json)
    (resp : PangolinResponse PangolinResources)
    (hs : res.StatusCode = 200) (hb : res.body = .wellFormed j)
    (hd : decodeResourcesEnvelope j = .ok resp) :
    GetResources res = .ok resp.Data := by
  obtain ⟨sc, st, body⟩ := res
  simp only at hs hb
  subst hs; subst hb
  simp [GetResources, hd]

/-- C4, amended witness: the envelope of the c4Body document has the
error flag set, and GetResources on HTTP 200 with that body returns
its (empty) resource list rather than an error. -/
theorem C4_GetResources_skips_error_flag_witness :
    GetResources ⟨200, "200 OK", .wellFormed c4Body⟩ = .ok ⟨[]⟩ ∧
    (⟨⟨[]⟩, false, true, "rejected", 0⟩ : PangolinResponse PangolinResources).Error = true := by
  refine ⟨?_, rfl⟩
  exact C4_GetResources_skips_error_flag ⟨200, "200 OK", .wellFormed c4Body⟩ c4Body
    ⟨⟨[]⟩, false, true, "rejected", 0⟩ rfl rfl rfl

/-- The scenario body of C6: a well-formed envelope holding exactly one
resource. -/
def c6Body : Json :=
  .obj [
    ("data", .obj [("resources", .arr [ .obj [("resourceId", .num 1), ("name", .str "svc"),
      ("enabled", .bool true), ("fullDomain", .str "svc.example.com")] ])]),
    ("success", .bool true), ("error", .bool false), ("message", .str ""), ("status", .num 200)]

/-- C6: a GetResources response with any status other than 200 yields
the transport-classified error carrying the status text, whatever the
body is, and the rendered error text prefixes the status text with the
words error status code; a 200 response with the scenario envelope
yields exactly the one resource with id 1, name svc, enabled true and
full domain svc.example.com. -/
theorem C6_GetResources_status_gate (res : HttpResp) :
    (res.StatusCode ≠ 200 →
      GetResources res = .error (.statusCode res.Status) ∧
      (PangolinErr.statusCode res.Status).text = "error status code: " ++ res.Status) ∧
    (res.StatusCode = 200 → res.body = .wellFormed c6Body →
      GetResources res = .ok ⟨[⟨some 1, some "svc", some true, some "svc.example.com"⟩]⟩) := by
  obtain ⟨sc, st, body⟩ := res
  constructor
  · intro hne
    simp only at hne
    refine ⟨?_, rfl⟩
    unfold GetResources
    rw [if_pos hne]
  · intro hs hb
    simp only at hs hb
    subst hs; subst hb
    rfl

/-- C6, witness: HTTP 503 with an unusable body yields the transport
error carrying the status text, and HTTP 200 with the scenario body
yields the single expected resource. -/
theorem C6_GetResources_status_gate_witness :
    GetResources ⟨503, "503 Service Unavailable", .malformed⟩ =
      .error (.statusCode "503 Service Unavailable") ∧
    GetResources ⟨200, "200 OK", .wellFormed c6Body⟩ =
      .ok ⟨[⟨some 1, some "svc", some true, some "svc.example.com"⟩]⟩ := by
  refine ⟨((C6_GetResources_status_gate ⟨503, "503 Service Unavailable", .malformed⟩).1
    (by decide)).1,
    (C6_GetResources_status_gate ⟨200, "200 OK", .wellFormed c6Body⟩).2 rfl rfl⟩

/-- C7: serializing a PangolinRule whose RuleID and ResourceID fields
are unset while action, match, value, priority and enabled are set
produces a JSON object containing exactly the five keys enabled,
priority, action, match and value: the ruleId and resourceId keys are
omitted entirely rather than emitted with a null value. -/
theorem C7_marshal_omits_unset_ids (e : Bool) (p : Int) (a m v : String) :
    marshalPangolinRule ⟨none, none, some e, some p, some a, some m, some v⟩ =
      .obj [("enabled", .bool e), ("priority", .num p), ("action", .str a),
            ("match", .str m), ("value", .str v)] := rfl

/-- C9: CreateRule never inspects the HTTP status code or status text
of the upstream response (its result depends on the body alone), and an
HTTP 503 whose body is the empty JSON object yields a successful result
whose rule has every field unset. -/
theorem C9_CreateRule_ignores_status :
    (∀ (c c' : Int) (t t' : String) (b : RespBody),
      CreateRule ⟨c, t, b⟩ = CreateRule ⟨c', t', b⟩) ∧
    CreateRule ⟨503, "503 Service Unavailable", .wellFormed (.obj [])⟩ =
      .ok ⟨none, none, none, none, none, none, none⟩ :=
  ⟨fun _ _ _ _ _ => rfl, rfl⟩

/-- C8: an ErrServerClosed result of the listener is never sent on the
error channel, and a clean shutdown makes run return nil and the
process exit 0 with nothing on the error stream; any other serve error
is sent, surfaced as the result of run, and makes the process exit 1
with the error text and a newline on the error stream. -/
theorem C8_lifecycle_exit :
    errChanSend .serverClosed = none ∧
    (∀ m : String, errChanSend (.failed m) = some m) ∧
    run (.ctxDone none) = none ∧
    processExit (.ctxDone none) = (0, none) ∧
    (∀ m : String, run (.errChanRecv m) = some m) ∧
    (∀ m : String, processExit (.errChanRecv m) = (1, some (m ++ "\n"))) :=
  ⟨rfl, fun _ => rfl, rfl, rfl, fun _ => rfl, fun _ => rfl⟩

/-- C10: handleRegisterIP never reads the request body, and whenever
the id path value parses as a number, the rule it passes to CreateRule
is exactly the rule with action ACCEPT, match IP, value equal to the
X-Real-IP header (even when that header is empty), priority 10, enabled
true, and unset RuleID and ResourceID, together with the parsed id. -/
theorem C10_handleRegisterIP_rule :
    (∀ (id ip b b' : String),
      handleRegisterIP ⟨id, ip, b⟩ = handleRegisterIP ⟨id, ip, b'⟩) ∧
    (∀ (r : RegisterRequest) (resourceID : Int),
      atoi r.idPathValue = some resourceID →
      handleRegisterIP r =
        .callCreateRule
          ⟨none, none, some true, some 10, some "ACCEPT", some "IP", some r.xRealIP⟩
          resourceID) := by
  constructor
  · intro id ip b b'; rfl
  · intro r rid h
    simp [handleRegisterIP, h]

/-- C10, witness: with id path value 7 and an empty X-Real-IP header,
the handler calls CreateRule with the fixed rule whose value is the
empty string and resource id 7, whatever the request body is. -/
theorem C10_handleRegisterIP_rule_witness :
    atoi "7" = some 7 ∧
    handleRegisterIP ⟨"7", "", "this body is ignored"⟩ =
      .callCreateRule ⟨none, none, some true, some 10, some "ACCEPT", some "IP", some ""⟩ 7 := by
  refine ⟨by decide, ?_⟩
  exact C10_handleRegisterIP_rule.2 ⟨"7", "", "this body is ignored"⟩ 7 (by decide)

end Portal
